import Mathlib

/-!
Shallow embedding of the pomodoro daemon (Go, `main` package) and proofs of
the specification's testable properties.

The embedding mirrors the daemon source:
* `Period` is `type Period int` with the constants `Unknown`, `Work`, `Rest`,
  `Stopped` (iota values 0..3); since the Go type is an integer type, the
  Lean model uses `Int` so that out-of-range values are representable.
* `Duration` is Go's `time.Duration`, an integer count of nanoseconds.
* `PomodoroDaemon` carries the mutable fields `currentPeriod` and
  `currentRestOfTime` plus the construction-time map
  `initialPeriodDurations` (a Go `map[Period]time.Duration` with keys `Work`
  and `Rest`; lookups of absent keys yield the zero value `0`, which the
  function model reproduces).
* `tick` is the body of one iteration of `runTimer`'s ticker loop; it returns
  the next state together with the notification emitted by `switchTimer`
  when a period switch happens (`none` otherwise).
* `toggleTimer`, `getStatus`, `handleConnection`, `formatDuration` follow the
  Go functions of the same names.
-/

namespace Pomodoro

/-- Go `type Period int`; the named constants below are the iota values. -/
abbrev Period := Int

/-- Go constant `Unknown Period = iota` (value 0). -/
def Unknown : Period := 0

/-- Go constant `Work` (value 1). -/
def Work : Period := 1

/-- Go constant `Rest` (value 2). -/
def Rest : Period := 2

/-- Go constant `Stopped` (value 3). -/
def Stopped : Period := 3

/-- Go `time.Duration`: an integer count of nanoseconds. -/
abbrev Duration := Int

/-- Go `1 * time.Second` as a `time.Duration` (10^9 nanoseconds). -/
def oneSecond : Duration := 1000000000

/-- The `notify-send` invocation made by `switchTimer`: a title and a body. -/
structure Notification where
  title : String
  message : String
  deriving DecidableEq

/-- The `Status` struct serialized as the JSON object
`{"period": ..., "rest_of_time": ..., "rest_of_time_str": ...}`. -/
structure Status where
  period : String
  restOfTime : Duration
  restOfTimeStr : String
  deriving DecidableEq

/-- The `Response` struct: Go serializes `Status *Status` with `omitempty`
(absent when `nil`, modelled by `none`) and `Error string` with `omitempty`
(absent when `""`). -/
structure Response where
  status : Option Status
  error : String
  deriving DecidableEq

/-- The daemon state guarded by the RWMutex: `currentPeriod`,
`currentRestOfTime`, and the construction-time duration map.  The socket
path and the mutex themselves carry no timer semantics and are omitted. -/
structure PomodoroDaemon where
  currentPeriod : Period
  currentRestOfTime : Duration
  initialPeriodDurations : Period → Duration

/-- Go `NewPomodoroDaemon`: starts at `Work` with the full work duration and
records the map `{Work: workDuration, Rest: restDuration}` (zero for any
other key, as a Go map lookup of an absent key yields the zero value). -/
def NewPomodoroDaemon (workDuration restDuration : Duration) : PomodoroDaemon :=
  { currentPeriod := Work
    currentRestOfTime := workDuration
    initialPeriodDurations := fun period =>
      if period = Work then workDuration
      else if period = Rest then restDuration
      else 0 }

/-- The state mutation performed by `Start` after the listener is created and
before the tick loop is spawned: `p.currentPeriod = Stopped;
p.currentRestOfTime = 0`. -/
def startState (p : PomodoroDaemon) : PomodoroDaemon :=
  { p with currentPeriod := Stopped, currentRestOfTime := 0 }

/-- Go `getReversedPeriod`: `Rest` for `Work`, `Work` for everything else. -/
def getReversedPeriod (current : Period) : Period :=
  if current = Work then Rest else Work

/-- Go `switchTimer`: reverse the period, reload `currentRestOfTime` from the
duration map at the new period, and fire a `notify-send` notification whose
text depends on the new period. -/
def switchTimer (p : PomodoroDaemon) : PomodoroDaemon × Notification :=
  let newPeriod := getReversedPeriod p.currentPeriod
  let q : PomodoroDaemon :=
    { p with currentPeriod := newPeriod
             currentRestOfTime := p.initialPeriodDurations newPeriod }
  if q.currentPeriod = Work then
    (q, { title := "Pomodoro: Work Time!"
          message := "Time to focus! Start your work session." })
  else
    (q, { title := "Pomodoro: Break Time!"
          message := "Take a break and relax." })

/-- The body of one iteration of `runTimer`'s 1-second ticker loop:
if the period is not `Stopped` and at most one second remains, switch
periods (emitting the switch notification); otherwise, if not `Stopped`,
subtract one second; a `Stopped` state is left untouched. -/
def tick (p : PomodoroDaemon) : PomodoroDaemon × Option Notification :=
  if p.currentPeriod ≠ Stopped ∧ p.currentRestOfTime ≤ oneSecond then
    let s := switchTimer p
    (s.1, some s.2)
  else if p.currentPeriod ≠ Stopped then
    ({ p with currentRestOfTime := p.currentRestOfTime - oneSecond }, none)
  else
    (p, none)

/-- Go `toggleTimer`: from `Stopped`, resume into `Work` with the configured
work duration; from anything else, stop (`Stopped`, remaining 0).  The Go
function body contains no notification call, so the emitted notification
component is always `none`. -/
def toggleTimer (p : PomodoroDaemon) : PomodoroDaemon × Option Notification :=
  if p.currentPeriod = Stopped then
    ({ p with currentPeriod := Work
              currentRestOfTime := p.initialPeriodDurations Work }, none)
  else
    ({ p with currentPeriod := Stopped, currentRestOfTime := 0 }, none)

/-- Go `periodToString`. -/
def periodToString (period : Period) : String :=
  if period = Work then "Work"
  else if period = Rest then "Rest"
  else if period = Stopped then "Stopped"
  else "Unknown"

/-- Go `fmt.Sprintf("%02d", n)`: left-pad with a zero to width 2 (a negative
number's sign counts toward the width, as in Go). -/
def zeroPad2 (n : Int) : String :=
  if 0 ≤ n ∧ n < 10 then "0" ++ toString n else toString n

/-- Go `formatDuration`: `seconds := int(d.Seconds())` truncates the second
count toward zero — for whole-second durations this is exactly truncated
division by 10^9, which `Int.tdiv` performs — then decomposes into hours,
minutes, seconds with Go's truncated `/` and `%` and renders `HH:MM:SS`
when `hours > 0`, else `MM:SS`. -/
def formatDuration (d : Duration) : String :=
  let seconds := Int.tdiv d 1000000000
  let hours := Int.tdiv seconds 3600
  let seconds := Int.tmod seconds 3600
  let minutes := Int.tdiv seconds 60
  let seconds := Int.tmod seconds 60
  if hours > 0 then
    zeroPad2 hours ++ ":" ++ zeroPad2 minutes ++ ":" ++ zeroPad2 seconds
  else
    zeroPad2 minutes ++ ":" ++ zeroPad2 seconds

/-- Go `getStatus`: a `Stopped` daemon reports the fixed
`("Stopped", 0, "00:00")` snapshot; otherwise the live period and remaining
time, formatted. -/
def getStatus (p : PomodoroDaemon) : Status :=
  if p.currentPeriod = Stopped then
    { period := "Stopped", restOfTime := 0, restOfTimeStr := "00:00" }
  else
    { period := periodToString p.currentPeriod
      restOfTime := p.currentRestOfTime
      restOfTimeStr := formatDuration p.currentRestOfTime }

/-- The command dispatch of `handleConnection` after trimming: `"get"`
snapshots, `"switch"` toggles then snapshots the post-toggle state, anything
else is the `"Unknown command"` error.  Returns the daemon state after the
command together with the response written to the client. -/
def handleCommand (p : PomodoroDaemon) (command : String) : PomodoroDaemon × Response :=
  if command = "get" then
    (p, { status := some (getStatus p), error := "" })
  else if command = "switch" then
    let p2 := (toggleTimer p).1
    (p2, { status := some (getStatus p2), error := "" })
  else
    (p, { status := none, error := "Unknown command" })

/-- Go `handleConnection`: read the request, `strings.TrimSpace` it, then
dispatch. -/
def handleConnection (p : PomodoroDaemon) (raw : String) : PomodoroDaemon × Response :=
  handleCommand p raw.trim

/-- An operation applied to the shared state: one tick-loop iteration or one
`toggleTimer` call (the two mutators of the state). -/
inductive Op where
  | tick
  | toggle
  deriving DecidableEq

/-- Apply one operation, discarding the notification component. -/
def applyOp (p : PomodoroDaemon) : Op → PomodoroDaemon
  | Op.tick => (tick p).1
  | Op.toggle => (toggleTimer p).1

/-- Run a finite sequence of operations left to right. -/
def run (p : PomodoroDaemon) (ops : List Op) : PomodoroDaemon :=
  ops.foldl applyOp p

/-- The spec's state invariant: the period is `Work`, `Rest` or `Stopped`
(never `Unknown` or out of range); a `Stopped` state has remaining 0; a
running state has `0 ≤ remaining ≤ periodLength[currentPeriod]`. -/
def Inv (p : PomodoroDaemon) : Prop :=
  (p.currentPeriod = Work ∨ p.currentPeriod = Rest ∨ p.currentPeriod = Stopped) ∧
  (p.currentPeriod = Stopped → p.currentRestOfTime = 0) ∧
  ((p.currentPeriod = Work ∨ p.currentPeriod = Rest) →
    0 ≤ p.currentRestOfTime ∧
    p.currentRestOfTime ≤ p.initialPeriodDurations p.currentPeriod)

instance (p : PomodoroDaemon) : Decidable (Inv p) := by
  unfold Inv
  infer_instance

/-- Duration fields survive a tick (only `currentPeriod` and
`currentRestOfTime` are written). -/
theorem tick_preserves_durations (p : PomodoroDaemon) :
    (tick p).1.initialPeriodDurations = p.initialPeriodDurations := by
  unfold tick switchTimer
  split
  · dsimp only
    split <;> rfl
  · split <;> rfl

/-- Duration fields survive a toggle. -/
theorem toggleTimer_preserves_durations (p : PomodoroDaemon) :
    (toggleTimer p).1.initialPeriodDurations = p.initialPeriodDurations := by
  unfold toggleTimer
  split <;> rfl

/-- C1: a running state (`Work` or `Rest`) with at most one second remaining
switches on the next tick: the period flips to the other member of
{`Work`, `Rest`} and the remaining time is reloaded with the configured
length of the period just entered. -/
theorem tick_switches_at_boundary (p : PomodoroDaemon)
    (hp : p.currentPeriod = Work ∨ p.currentPeriod = Rest)
    (hr : p.currentRestOfTime ≤ oneSecond) :
    (p.currentPeriod = Work → (tick p).1.currentPeriod = Rest) ∧
    (p.currentPeriod = Rest → (tick p).1.currentPeriod = Work) ∧
    (tick p).1.currentRestOfTime =
      p.initialPeriodDurations ((tick p).1.currentPeriod) := by
  rcases hp with h | h <;>
    simp [tick, switchTimer, getReversedPeriod, h, hr, Work, Rest, Stopped]

/-- A concrete duration map: 2 s of work, 1 s of rest. -/
def sampleDurations : Period → Duration := fun period =>
  if period = Work then 2000000000
  else if period = Rest then 1000000000
  else 0

/-- A concrete running state at the switch boundary: `Work` with 1 s left. -/
def sampleWorkBoundary : PomodoroDaemon :=
  { currentPeriod := Work, currentRestOfTime := 1000000000
    initialPeriodDurations := sampleDurations }

/-- Witness for C1 at the concrete state (`Work`, 1 s, lengths 2 s / 1 s). -/
theorem tick_switches_at_boundary_witness :
    (sampleWorkBoundary.currentPeriod = Work →
      (tick sampleWorkBoundary).1.currentPeriod = Rest) ∧
    (sampleWorkBoundary.currentPeriod = Rest →
      (tick sampleWorkBoundary).1.currentPeriod = Work) ∧
    (tick sampleWorkBoundary).1.currentRestOfTime =
      sampleWorkBoundary.initialPeriodDurations
        ((tick sampleWorkBoundary).1.currentPeriod) :=
  tick_switches_at_boundary _ (Or.inl rfl) (by decide)

/-- C2: a running state with strictly more than one second remaining ticks
down by exactly one second and keeps its period. -/
theorem tick_decrements_above_boundary (p : PomodoroDaemon)
    (hp : p.currentPeriod = Work ∨ p.currentPeriod = Rest)
    (hr : oneSecond < p.currentRestOfTime) :
    (tick p).1.currentRestOfTime = p.currentRestOfTime - oneSecond ∧
    (tick p).1.currentPeriod = p.currentPeriod := by
  have hr2 : ¬ p.currentRestOfTime ≤ oneSecond := not_le.mpr hr
  rcases hp with h | h <;>
    simp [tick, h, hr2, Work, Rest, Stopped]

/-- Witness for C2 at the concrete state (`Rest`, 5 s). -/
theorem tick_decrements_above_boundary_witness :
    (tick { currentPeriod := Rest, currentRestOfTime := 5000000000,
            initialPeriodDurations := fun _ => 5000000000 }).1.currentRestOfTime =
      (5000000000 : Int) - oneSecond ∧
    (tick { currentPeriod := Rest, currentRestOfTime := 5000000000,
            initialPeriodDurations := fun _ => 5000000000 }).1.currentPeriod = Rest :=
  tick_decrements_above_boundary _ (Or.inr rfl) (by decide)

/-- C5: a tick on a `Stopped` state changes nothing — the whole state
(period, remaining time, configured lengths) is returned unchanged, and no
notification fires. -/
theorem tick_stopped_fixed_point (p : PomodoroDaemon)
    (hp : p.currentPeriod = Stopped) :
    (tick p).1 = p ∧ (tick p).2 = none := by
  simp [tick, hp, Stopped]

/-- Witness for C5 at a concrete `Stopped` state. -/
theorem tick_stopped_fixed_point_witness :
    (tick { currentPeriod := Stopped, currentRestOfTime := 0,
            initialPeriodDurations := fun _ => 0 }).1 =
      { currentPeriod := Stopped, currentRestOfTime := 0,
        initialPeriodDurations := fun _ => 0 } ∧
    (tick { currentPeriod := Stopped, currentRestOfTime := 0,
            initialPeriodDurations := fun _ => 0 }).2 = none :=
  tick_stopped_fixed_point _ rfl

/-- C10: `getReversedPeriod` is total over the integer-typed `Period`:
`Work` maps to `Rest` and every other value (including `Rest`, `Stopped`,
`Unknown` and out-of-range integers) maps to `Work`, so its image is always
inside {`Work`, `Rest`}. -/
theorem getReversedPeriod_total (c : Period) :
    (c = Work → getReversedPeriod c = Rest) ∧
    (c ≠ Work → getReversedPeriod c = Work) ∧
    (getReversedPeriod c = Work ∨ getReversedPeriod c = Rest) := by
  unfold getReversedPeriod
  by_cases h : c = Work <;> simp [h]

/-- Witness for C10 at `Work` and at the out-of-range value 7. -/
theorem getReversedPeriod_total_witness :
    getReversedPeriod Work = Rest ∧ getReversedPeriod 7 = Work :=
  ⟨(getReversedPeriod_total Work).1 rfl,
   (getReversedPeriod_total 7).2.1 (by decide)⟩

/-- C3: toggling a stopped timer resumes into `Work` with the configured
work length; toggling a running timer (`Work` or `Rest`) stops it at
(`Stopped`, 0); toggling twice from a running state lands on
(`Work`, `periodLength[Work]`) whatever was running before; and toggle never
emits a notification. -/
theorem toggleTimer_involution (p : PomodoroDaemon) :
    (p.currentPeriod = Stopped →
      (toggleTimer p).1.currentPeriod = Work ∧
      (toggleTimer p).1.currentRestOfTime = p.initialPeriodDurations Work) ∧
    ((p.currentPeriod = Work ∨ p.currentPeriod = Rest) →
      (toggleTimer p).1.currentPeriod = Stopped ∧
      (toggleTimer p).1.currentRestOfTime = 0) ∧
    ((p.currentPeriod = Work ∨ p.currentPeriod = Rest) →
      (toggleTimer (toggleTimer p).1).1.currentPeriod = Work ∧
      (toggleTimer (toggleTimer p).1).1.currentRestOfTime =
        p.initialPeriodDurations Work) ∧
    (toggleTimer p).2 = none := by
  refine ⟨fun h => ?_, fun h => ?_, fun h => ?_, ?_⟩
  · simp [toggleTimer, h]
  · rcases h with h | h <;> simp [toggleTimer, h, Work, Rest, Stopped]
  · rcases h with h | h <;> simp [toggleTimer, h, Work, Rest, Stopped]
  · unfold toggleTimer
    split <;> rfl

/-- A concrete running state mid-period: `Rest` with 0.5 s left. -/
def sampleRestRunning : PomodoroDaemon :=
  { currentPeriod := Rest, currentRestOfTime := 500000000
    initialPeriodDurations := sampleDurations }

/-- Witness for C3 at the concrete running state (`Rest`, 0.5 s). -/
theorem toggleTimer_involution_witness :
    ((toggleTimer sampleRestRunning).1.currentPeriod = Stopped ∧
      (toggleTimer sampleRestRunning).1.currentRestOfTime = 0) ∧
    ((toggleTimer (toggleTimer sampleRestRunning).1).1.currentPeriod = Work ∧
      (toggleTimer (toggleTimer sampleRestRunning).1).1.currentRestOfTime =
        sampleRestRunning.initialPeriodDurations Work) ∧
    (toggleTimer sampleRestRunning).2 = none :=
  ⟨(toggleTimer_involution sampleRestRunning).2.1 (Or.inr rfl),
   (toggleTimer_involution sampleRestRunning).2.2.1 (Or.inr rfl),
   (toggleTimer_involution sampleRestRunning).2.2.2⟩

/-- The fixed snapshot a `Stopped` daemon reports. -/
def stoppedStatus : Status :=
  { period := "Stopped", restOfTime := 0, restOfTimeStr := "00:00" }

/-- Evaluation of `strings.TrimSpace` on the literal request `"get"`. -/
theorem trim_get_eq : "get".trim = "get" := by
  show ("get".toSubstring.trim).toString = "get"
  rw [Substring.trim, Substring.takeWhileAux, Substring.takeRightWhileAux]
  decide

/-- Evaluation of `strings.TrimSpace` on the literal request `"switch"`. -/
theorem trim_switch_eq : "switch".trim = "switch" := by
  show ("switch".toSubstring.trim).toString = "switch"
  rw [Substring.trim, Substring.takeWhileAux, Substring.takeRightWhileAux]
  decide

/-- Evaluation of `strings.TrimSpace` on the literal request `"bogus"`. -/
theorem trim_bogus_eq : "bogus".trim = "bogus" := by
  show ("bogus".toSubstring.trim).toString = "bogus"
  rw [Substring.trim, Substring.takeWhileAux, Substring.takeRightWhileAux]
  decide

/-- C7: a `"get"` sent to a freshly started daemon (state forced to
(`Stopped`, 0) by `Start`, before any toggle) leaves the state unchanged and
answers with the status `{"period":"Stopped","rest_of_time":0,
"rest_of_time_str":"00:00"}` and no error; more generally every `Stopped`
state snapshots to that same status. -/
theorem get_on_fresh_daemon (w r : Duration) (p : PomodoroDaemon)
    (hp : p.currentPeriod = Stopped) :
    handleConnection (startState (NewPomodoroDaemon w r)) "get" =
      (startState (NewPomodoroDaemon w r),
       { status := some stoppedStatus, error := "" }) ∧
    getStatus p = stoppedStatus := by
  constructor
  · simp [handleConnection, handleCommand, trim_get_eq, getStatus, startState,
      NewPomodoroDaemon, stoppedStatus]
  · simp [getStatus, hp, stoppedStatus]

/-- Witness for C7 with 25-minute work and 5-minute rest lengths. -/
theorem get_on_fresh_daemon_witness :
    handleConnection (startState (NewPomodoroDaemon 1500000000000 300000000000)) "get" =
      (startState (NewPomodoroDaemon 1500000000000 300000000000),
       { status := some stoppedStatus, error := "" }) ∧
    getStatus (startState (NewPomodoroDaemon 1500000000000 300000000000)) =
      stoppedStatus :=
  get_on_fresh_daemon 1500000000000 300000000000 _ rfl

/-- C8: after trimming, any token other than `"get"` and `"switch"`
(the empty token included) draws the `"Unknown command"` error response with
no status; and every response has exactly one of the status and error fields
populated (Go omits a `nil` status and an empty error string from the JSON). -/
theorem unknown_command_error (p : PomodoroDaemon) (raw : String) :
    (raw.trim ≠ "get" → raw.trim ≠ "switch" →
      (handleConnection p raw).2 =
        { status := none, error := "Unknown command" }) ∧
    (((handleConnection p raw).2.status ≠ none ∧
        (handleConnection p raw).2.error = "") ∨
      ((handleConnection p raw).2.status = none ∧
        (handleConnection p raw).2.error ≠ "")) := by
  constructor
  · intro h1 h2
    simp [handleConnection, handleCommand, h1, h2]
  · unfold handleConnection handleCommand
    by_cases h1 : raw.trim = "get"
    · simp [h1]
    · by_cases h2 : raw.trim = "switch" <;> simp [h1, h2]

/-- Witness for C8 on the request `"bogus"` (and, for the second conjunct,
the well-formedness of that error response). -/
theorem unknown_command_error_witness :
    ((handleConnection sampleRestRunning "bogus").2 =
        { status := none, error := "Unknown command" }) ∧
    (((handleConnection sampleRestRunning "bogus").2.status ≠ none ∧
        (handleConnection sampleRestRunning "bogus").2.error = "") ∨
      ((handleConnection sampleRestRunning "bogus").2.status = none ∧
        (handleConnection sampleRestRunning "bogus").2.error ≠ "")) :=
  ⟨(unknown_command_error sampleRestRunning "bogus").1
      (by rw [trim_bogus_eq]; decide) (by rw [trim_bogus_eq]; decide),
   (unknown_command_error sampleRestRunning "bogus").2⟩

/-- C9: handling `"switch"` first toggles and then snapshots: the resulting
daemon state is the toggled state and the response's status is the snapshot
of that post-toggle state — in particular, switching a running timer
reports the stopped snapshot, not the pre-toggle period. -/
theorem switch_reports_post_toggle (p : PomodoroDaemon) :
    (handleConnection p "switch").1 = (toggleTimer p).1 ∧
    (handleConnection p "switch").2.status =
      some (getStatus (toggleTimer p).1) ∧
    (p.currentPeriod ≠ Stopped →
      (handleConnection p "switch").2.status = some stoppedStatus) := by
  refine ⟨?_, ?_, fun h => ?_⟩
  · simp [handleConnection, handleCommand, trim_switch_eq]
  · simp [handleConnection, handleCommand, trim_switch_eq]
  · simp [handleConnection, handleCommand, trim_switch_eq, toggleTimer, h,
      getStatus, stoppedStatus]

/-- Witness for C9 on the running state (`Rest`, 0.5 s): the response is the
stopped snapshot, not the pre-toggle `Rest` status. -/
theorem switch_reports_post_toggle_witness :
    (handleConnection sampleRestRunning "switch").1 =
      (toggleTimer sampleRestRunning).1 ∧
    (handleConnection sampleRestRunning "switch").2.status =
      some (getStatus (toggleTimer sampleRestRunning).1) ∧
    (handleConnection sampleRestRunning "switch").2.status =
      some stoppedStatus :=
  ⟨(switch_reports_post_toggle sampleRestRunning).1,
   (switch_reports_post_toggle sampleRestRunning).2.1,
   (switch_reports_post_toggle sampleRestRunning).2.2 (by decide)⟩

/-- Duration fields survive any operation. -/
theorem applyOp_preserves_durations (p : PomodoroDaemon) (o : Op) :
    (applyOp p o).initialPeriodDurations = p.initialPeriodDurations := by
  cases o with
  | tick => exact tick_preserves_durations p
  | toggle => exact toggleTimer_preserves_durations p

/-- One operation preserves the invariant, given non-negative configured
durations. -/
theorem applyOp_preserves_Inv (p : PomodoroDaemon) (o : Op)
    (hw : 0 ≤ p.initialPeriodDurations Work)
    (hrd : 0 ≤ p.initialPeriodDurations Rest)
    (h : Inv p) : Inv (applyOp p o) := by
  obtain ⟨hper, hstop, hrun⟩ := h
  cases o with
  | toggle =>
    by_cases hs : p.currentPeriod = Stopped
    · have hgoal : applyOp p Op.toggle =
        { p with currentPeriod := Work
                 currentRestOfTime := p.initialPeriodDurations Work } := by
        simp [applyOp, toggleTimer, hs]
      rw [hgoal]
      exact ⟨Or.inl rfl, fun hc => absurd hc (show Work ≠ Stopped by decide),
        fun _ => ⟨hw, le_refl _⟩⟩
    · have hgoal : applyOp p Op.toggle =
        { p with currentPeriod := Stopped, currentRestOfTime := 0 } := by
        simp [applyOp, toggleTimer, hs]
      rw [hgoal]
      refine ⟨Or.inr (Or.inr rfl), fun _ => rfl, fun hc => ?_⟩
      rcases hc with hc | hc
      · exact absurd hc (show Stopped ≠ Work by decide)
      · exact absurd hc (show Stopped ≠ Rest by decide)
  | tick =>
    by_cases hs : p.currentPeriod = Stopped
    · have hgoal : applyOp p Op.tick = p := by
        simp [applyOp, tick, hs]
      rw [hgoal]
      exact ⟨hper, hstop, hrun⟩
    · have hper2 : p.currentPeriod = Work ∨ p.currentPeriod = Rest := by
        rcases hper with h1 | h1 | h1
        · exact Or.inl h1
        · exact Or.inr h1
        · exact absurd h1 hs
      by_cases hb : p.currentRestOfTime ≤ oneSecond
      · rcases hper2 with h1 | h1
        · have hgoal : applyOp p Op.tick =
            { p with currentPeriod := Rest
                     currentRestOfTime := p.initialPeriodDurations Rest } := by
            simp [applyOp, tick, switchTimer, getReversedPeriod, h1, hb,
              (by decide : Work ≠ Stopped), (by decide : Rest ≠ Work)]
          rw [hgoal]
          exact ⟨Or.inr (Or.inl rfl),
            fun hc => absurd hc (show Rest ≠ Stopped by decide),
            fun _ => ⟨hrd, le_refl _⟩⟩
        · have hgoal : applyOp p Op.tick =
            { p with currentPeriod := Work
                     currentRestOfTime := p.initialPeriodDurations Work } := by
            simp [applyOp, tick, switchTimer, getReversedPeriod, h1, hb,
              (by decide : Rest ≠ Stopped), (by decide : Rest ≠ Work)]
          rw [hgoal]
          exact ⟨Or.inl rfl,
            fun hc => absurd hc (show Work ≠ Stopped by decide),
            fun _ => ⟨hw, le_refl _⟩⟩
      · obtain ⟨hlo, hhi⟩ := hrun hper2
        have hgoal : applyOp p Op.tick =
          { p with currentRestOfTime := p.currentRestOfTime - oneSecond } := by
          simp [applyOp, tick, hb, hs]
        rw [hgoal]
        have hb2 : oneSecond < p.currentRestOfTime := not_le.mp hb
        refine ⟨hper, fun hc => absurd hc hs, fun _ => ⟨?_, ?_⟩⟩
        · show (0 : Int) ≤ p.currentRestOfTime - oneSecond
          exact sub_nonneg.mpr (le_of_lt hb2)
        · show p.currentRestOfTime - oneSecond ≤
            p.initialPeriodDurations p.currentPeriod
          exact le_trans (sub_le_self _ (show (0 : Int) ≤ oneSecond by decide)) hhi

/-- The invariant is preserved by any finite operation sequence, given
non-negative configured durations. -/
theorem run_preserves_Inv (ops : List Op) (p : PomodoroDaemon)
    (hw : 0 ≤ p.initialPeriodDurations Work)
    (hrd : 0 ≤ p.initialPeriodDurations Rest)
    (h : Inv p) : Inv (run p ops) := by
  induction ops generalizing p with
  | nil => exact h
  | cons o rest ih =>
    show Inv (run (applyOp p o) rest)
    refine ih (applyOp p o) ?_ ?_ (applyOp_preserves_Inv p o hw hrd h)
    · rw [applyOp_preserves_durations]
      exact hw
    · rw [applyOp_preserves_durations]
      exact hrd

/-- C4: from the post-startup state (`Stopped`, 0) of a daemon constructed
with non-negative work and rest lengths, every finite sequence of tick and
toggle operations preserves the invariant: the period stays inside
{`Work`, `Rest`, `Stopped`} (`Unknown` is never produced), a `Stopped`
state has remaining 0, and a running state has
`0 ≤ remaining ≤ periodLength[currentPeriod]`. -/
theorem invariant_preserved (w r : Duration) (hw : 0 ≤ w) (hr : 0 ≤ r)
    (ops : List Op) :
    Inv (run (startState (NewPomodoroDaemon w r)) ops) := by
  apply run_preserves_Inv
  · simpa [startState, NewPomodoroDaemon, Work, Rest] using hw
  · simpa [startState, NewPomodoroDaemon, Work, Rest] using hr
  · refine ⟨Or.inr (Or.inr rfl), fun _ => rfl, fun hc => ?_⟩
    rcases hc with hc | hc <;>
      simp [startState, NewPomodoroDaemon, Work, Rest, Stopped] at hc

/-- Witness for C4: lengths 2 s / 1 s and the sequence toggle, tick, tick,
toggle, which exercises resume, decrement, switch and stop. -/
theorem invariant_preserved_witness :
    (0 : Int) ≤ 2000000000 ∧ (0 : Int) ≤ 1000000000 ∧
    Inv (run (startState (NewPomodoroDaemon 2000000000 1000000000))
      [Op.toggle, Op.tick, Op.tick, Op.toggle]) :=
  ⟨by decide, by decide,
   invariant_preserved 2000000000 1000000000 (by decide) (by decide) _⟩

/-- Zero-padding to two digits as the spec words it, over `Nat`. -/
def padSpec (n : Nat) : String :=
  if n < 10 then "0" ++ toString n else toString n

/-- The spec's rendering of a whole-second count: decompose into hours,
minutes and seconds; render `HH:MM:SS` when hours are positive and `MM:SS`
otherwise, each field zero-padded to 2 digits. -/
def specFormatSeconds (s : Nat) : String :=
  let hours := s / 3600
  let minutes := s % 3600 / 60
  let seconds := s % 60
  if 0 < hours then
    padSpec hours ++ ":" ++ padSpec minutes ++ ":" ++ padSpec seconds
  else
    padSpec minutes ++ ":" ++ padSpec seconds

/-- The Go `%02d` rendering agrees with the spec's padding on `Nat` casts. -/
theorem zeroPad2_natCast (m : Nat) : zeroPad2 ((m : Nat) : Int) = padSpec m := by
  unfold zeroPad2 padSpec
  have h0 : (0 : Int) ≤ (m : Int) := Int.ofNat_nonneg m
  have hts : toString ((m : Nat) : Int) = toString m := rfl
  by_cases h : m < 10
  · have h2 : ((m : Nat) : Int) < 10 := by exact_mod_cast h
    simp [h, h2, h0, hts]
  · have h2 : ¬ ((m : Nat) : Int) < 10 := by
      push_neg
      push_neg at h
      exact_mod_cast h
    simp [h, h2, hts]

/-- C6, general part: on every non-negative whole-second duration
(`s` seconds, i.e. `s * 10^9` nanoseconds), `formatDuration` renders the
spec's hours/minutes/seconds decomposition. -/
theorem formatDuration_whole (s : Nat) :
    formatDuration ((s : Int) * 1000000000) = specFormatSeconds s := by
  unfold formatDuration specFormatSeconds
  have e0 : ((s : Int) * 1000000000) = (((s * 1000000000 : Nat) : Nat) : Int) := by
    push_cast
    ring
  rw [e0]
  simp only [show (1000000000 : Int) = ((1000000000 : Nat) : Int) from rfl,
    show (3600 : Int) = ((3600 : Nat) : Int) from rfl,
    show (60 : Int) = ((60 : Nat) : Int) from rfl,
    ← Int.ofNat_tdiv, ← Int.ofNat_tmod]
  rw [Nat.mul_div_cancel s (by decide : 0 < 1000000000)]
  simp only [zeroPad2_natCast]
  rw [Nat.mod_mod_of_dvd s (by decide : 60 ∣ 3600)]
  have hc : (((s / 3600 : Nat) : Int) > 0) ↔ 0 < s / 3600 := by
    exact_mod_cast Iff.rfl
  by_cases h : 0 < s / 3600
  · simp only [if_pos (hc.mpr h), if_pos h]
  · simp only [if_neg (fun hx => h (hc.mp hx)), if_neg h]

/-- C6: on every non-negative whole-second duration (`s` seconds),
`formatDuration` renders the spec's decomposition into hours, minutes and
seconds — `HH:MM:SS` when hours are positive, `MM:SS` otherwise, each field
zero-padded to two digits — and in particular 0 s renders `"00:00"`, 65 s
renders `"01:05"`, and 3661 s renders `"01:01:01"`. -/
theorem formatDuration_correct (s : Nat) :
    formatDuration ((s : Int) * 1000000000) = specFormatSeconds s ∧
    formatDuration 0 = "00:00" ∧
    formatDuration (65 * 1000000000) = "01:05" ∧
    formatDuration (3661 * 1000000000) = "01:01:01" :=
  ⟨formatDuration_whole s, by decide, by decide, by decide⟩

end Pomodoro
